import Mathlib

/-!
Shallow embedding of `zed_3d_targeting_auto_script.py` (target localization engine):
the detection-state / depth-state callbacks and the color-frame driven targeting
callback that computes per-box range and bearing and publishes localization
records and an annotated image.

Modelling conventions:
* Python floats are embedded as exact rationals (`ℚ`); Python 3 true division is
  rational division.
* `np.mean` of an empty array is NaN; every comparison against NaN is false.
  This is modelled by `npMean : List ℚ → Option ℚ` returning `none` for the
  empty list, and by the depth-window filter keeping nothing when the mean is
  `none` (exactly the behavior of `x > NaN` / `x < NaN` in numpy).
* numpy basic slicing `a[lo:hi]` resolves negative indices from the end and
  clamps to `[0, len]`; `sliceIdx` implements that resolution.
* The annotated output image is modelled as the input frame together with the
  list of drawing operations applied to it; an empty operation list is the
  unmodified frame.
-/

namespace ZedTargeting

/-! ## Configuration constants (SETUP section of the script) -/

/-- Constant `TARGET_BOX_REDUCTION_PERCENT=50` — percent of the box around its center used
for the range calculation. -/
def TARGET_BOX_REDUCTION_PERCENT : ℚ := 50

/-- Constant `TARGET_DEPTH_METERS=0.3` — the depth filter band around the mean depth. -/
def TARGET_DEPTH_METERS : ℚ := 3 / 10

/-- Constant `TARGET_MIN_VALUES=10` — minimum number of valid points for a valid range. -/
def TARGET_MIN_VALUES : ℕ := 10

/-- Constant `FOV_VERT_DEG=70` — camera vertical field of view. -/
def FOV_VERT_DEG : ℚ := 70

/-- Constant `FOV_HORZ_DEG=110` — camera horizontal field of view. -/
def FOV_HORZ_DEG : ℚ := 110

/-! ## Basic data -/

/-- Python `int(x)` on a float: truncation toward zero. -/
def pyInt (q : ℚ) : ℤ := if 0 ≤ q then ⌊q⌋ else ⌈q⌉

/-- One bounding box of a `darknet_ros_msgs/BoundingBoxes` message. -/
structure BoundingBox where
  Class : String
  xmin : ℤ
  ymin : ℤ
  xmax : ℤ
  ymax : ℤ
deriving DecidableEq

/-- The converted float-meters depth array (`np_depth_array_m`), row major. -/
abbrev DepthMat := List (List ℚ)

/-- Number of rows of a depth matrix (numpy `shape[0]`). -/
def matRows (m : DepthMat) : ℕ := m.length

/-- Number of columns of a (rectangular) depth matrix (numpy `shape[1]`). -/
def matCols (m : DepthMat) : ℕ := (m.headD []).length

/-- A raw depth pixel as delivered on the depth topic: a float that may be NaN
or infinite. -/
inductive RawDepth where
  | val (q : ℚ)
  | nan
  | posInf
  | negInf
deriving DecidableEq

/-- Sanitization applied in `get_depth_data_callback`: NaN and infinite pixels
are zeroed, finite values kept. -/
def RawDepth.sanitize : RawDepth → ℚ
  | .val q => q
  | .nan => 0
  | .posInf => 0
  | .negInf => 0

/-- Statements `np_depth_array_m[np.isnan]=0; np_depth_array_m[np.isinf]=0` applied to a
whole raw frame. -/
def sanitizeDepth (raw : List (List RawDepth)) : DepthMat :=
  raw.map (fun row => row.map RawDepth.sanitize)

/-- The driving color frame; only its height and width are read by the
targeting callback (pixel payload is irrelevant to the computation and is
identified by the frame itself in the overlay model). -/
structure ColorImage where
  height : ℕ
  width : ℕ
deriving DecidableEq

/-- The `nepi_ros_interfaces/TargetLocalization` output record. -/
structure TargetLocalization where
  name : String
  range_m : ℚ
  azimuth_deg : ℚ
  elevation_deg : ℚ
deriving DecidableEq

/-- One drawing operation applied to the overlay image. `data` carries the
numbers rendered in the second text line; its range field is `none` when the
code substitutes NaN for the sentinel before formatting. -/
inductive OverlayOp where
  | rect (xmin ymin xmax ymax : ℤ)
  | label (s : String) (x y : ℤ)
  | data (rangeM : Option ℚ) (azDeg elDeg : ℚ) (x y : ℤ)
deriving DecidableEq

/-! ## numpy slicing -/

/-- Resolution of one slice bound for an axis of length `n` (step 1): a
negative index counts from the end, then the result is clamped to `[0, n]`. -/
def sliceIdx (i : ℤ) (n : ℕ) : ℕ :=
  (max 0 (min (if i < 0 then i + n else i) (n : ℤ))).toNat

/-- numpy `l[a:b]` (step 1) on one axis. -/
def slice1 {α : Type} (l : List α) (a b : ℤ) : List α :=
  (l.drop (sliceIdx a l.length)).take (sliceIdx b l.length - sliceIdx a l.length)

/-- numpy `m[r0:r1, c0:c1]` on a 2D array. -/
def slice2 (m : DepthMat) (r0 r1 c0 c1 : ℤ) : DepthMat :=
  (slice1 m r0 r1).map (fun row => slice1 row c0 c1)

/-- Function `np.mean` of a flattened array: `none` models the NaN produced on an empty
array; on a non-empty array the mean is `sum / length`. -/
def npMean (l : List ℚ) : Option ℚ :=
  if l.isEmpty then none else some (l.sum / l.length)

/-! ## Box reduction (lines 154-159 of the script) -/

/-- Assignment `box_reduction_y_pix = int(float(ymax-ymin) * PCT/100/2)`. -/
def boxReductionYPix (box : BoundingBox) : ℤ :=
  pyInt ((box.ymax - box.ymin : ℚ) * TARGET_BOX_REDUCTION_PERCENT / 100 / 2)

/-- Assignment `box_reduction_x_pix = int(float(xmax-xmin) * PCT/100/2)`. -/
def boxReductionXPix (box : BoundingBox) : ℤ :=
  pyInt ((box.xmax - box.xmin : ℚ) * TARGET_BOX_REDUCTION_PERCENT / 100 / 2)

/-- Assignment `ymin_adj = int(ymin + box_reduction_y_pix)`. -/
def yminAdj (box : BoundingBox) : ℤ := box.ymin + boxReductionYPix box

/-- Assignment `ymax_adj = int(ymax - box_reduction_y_pix)`. -/
def ymaxAdj (box : BoundingBox) : ℤ := box.ymax - boxReductionYPix box

/-- Assignment `xmin_adj = xmin + box_reduction_x_pix`. -/
def xminAdj (box : BoundingBox) : ℤ := box.xmin + boxReductionXPix box

/-- Assignment `xmax_adj = xmax - box_reduction_x_pix`. -/
def xmaxAdj (box : BoundingBox) : ℤ := box.xmax - boxReductionXPix box

/-! ## Range estimation (lines 161-176 of the script) -/

/-- Assignment `depth_box_adj = np_depth_array_m[ymin_adj:ymax_adj, xmin_adj:xmax_adj]`. -/
def depthBoxAdj (m : DepthMat) (box : BoundingBox) : DepthMat :=
  slice2 m (yminAdj box) (ymaxAdj box) (xminAdj box) (xmaxAdj box)

/-- The flattened shrunk-region depth samples (`depth_box_adj.flatten()`). -/
def depthSamples (m : DepthMat) (box : BoundingBox) : List ℚ :=
  (depthBoxAdj m box).flatten

/-- The depth-window filter: keep samples `v` with
`depth_mean - TARGET_DEPTH_METERS/2 < v` and then `v < depth_mean +
TARGET_DEPTH_METERS/2` (both comparisons strict in the code). When the mean is
NaN (empty sub-matrix) both numpy comparisons are false for every sample, so
nothing survives. -/
def depthFilter (flat : List ℚ) : List ℚ :=
  match npMean flat with
  | none => []
  | some μ =>
    (flat.filter (fun v => decide (μ - TARGET_DEPTH_METERS / 2 < v))).filter
      (fun v => decide (v < μ + TARGET_DEPTH_METERS / 2))

/-- Value `target_range_m`: if no depth array is held, the sentinel `-999`; else if
the filtered sample count exceeds `TARGET_MIN_VALUES`, `np.mean(depth_box_adj)`
— the mean of the *unfiltered* sub-matrix (necessarily non-empty on this
branch, hence `sum / length`); otherwise the sentinel `-999`. -/
def targetRangeM (depth : Option DepthMat) (box : BoundingBox) : ℚ :=
  match depth with
  | none => -999
  | some m =>
    if TARGET_MIN_VALUES < (depthFilter (depthSamples m box)).length then
      (depthSamples m box).sum / (depthSamples m box).length
    else -999

/-! ## Bearing estimation (lines 178-183 of the script) -/

/-- Assignment `object_loc_y_pix = float(ymin + (ymax - ymin) / 2)`. -/
def objectLocYPix (box : BoundingBox) : ℚ :=
  box.ymin + (box.ymax - box.ymin : ℚ) / 2

/-- Assignment `object_loc_x_pix = float(xmin + (xmax - xmin) / 2)`. -/
def objectLocXPix (box : BoundingBox) : ℚ :=
  box.xmin + (box.xmax - box.xmin : ℚ) / 2

/-- Assignment `target_vert_angle_deg = -((y_pix - H/2) / (H/2) * (FOV_VERT_DEG/2))`. -/
def targetVertAngleDeg (imgHeight : ℕ) (box : BoundingBox) : ℚ :=
  -(((objectLocYPix box - (imgHeight : ℚ) / 2) / ((imgHeight : ℚ) / 2)) *
    (FOV_VERT_DEG / 2))

/-- Assignment `target_horz_angle_deg = (x_pix - W/2) / (W/2) * (FOV_HORZ_DEG/2)`. -/
def targetHorzAngleDeg (imgWidth : ℕ) (box : BoundingBox) : ℚ :=
  ((objectLocXPix box - (imgWidth : ℚ) / 2) / ((imgWidth : ℚ) / 2)) *
    (FOV_HORZ_DEG / 2)

/-! ## Node state and callbacks -/

/-- The script's global mutable state: `publish_enable`, `np_depth_array_m`,
`detect_boxes`. -/
structure NodeState where
  publish_enable : Bool
  np_depth_array_m : Option DepthMat
  detect_boxes : Option (List BoundingBox)
deriving DecidableEq

/-- Handler `found_object_callback`: on a count of zero, reset `detect_boxes` to
`None`; otherwise no state change. -/
def found_object_callback (s : NodeState) (count : ℕ) : NodeState :=
  if count = 0 then { s with detect_boxes := none } else s

/-- Handler `object_detected_callback`: unconditionally replace `detect_boxes`. -/
def object_detected_callback (s : NodeState) (boxes : List BoundingBox) :
    NodeState :=
  { s with detect_boxes := some boxes }

/-- Handler `get_depth_data_callback`: replace `np_depth_array_m` with the sanitized
float-meters matrix. -/
def get_depth_data_callback (s : NodeState) (raw : List (List RawDepth)) :
    NodeState :=
  { s with np_depth_array_m := some (sanitizeDepth raw) }

/-- Per-box work of `object_targeting_callback`: the localization record and
the overlay operations drawn for this box. -/
def processBox (depth : Option DepthMat) (img : ColorImage)
    (box : BoundingBox) : TargetLocalization × List OverlayOp :=
  let range := targetRangeM depth box
  let az := targetHorzAngleDeg img.width box
  let el := targetVertAngleDeg img.height box
  (⟨box.Class, range, az, el⟩,
   [.rect (xminAdj box) (yminAdj box) (xmaxAdj box) (ymaxAdj box),
    .label box.Class (pyInt (objectLocXPix box)) (pyInt (objectLocYPix box)),
    .data (if range = -999 then none else some range) az el
      (pyInt (objectLocXPix box)) (pyInt (objectLocYPix box) + 15)])

/-- The localization records produced in one driving cycle, one per held box;
none when `detect_boxes` is `None`. -/
def targeting_records (s : NodeState) (img : ColorImage) :
    List TargetLocalization :=
  match s.detect_boxes with
  | none => []
  | some boxes => boxes.map (fun b => (processBox s.np_depth_array_m img b).1)

/-- The overlay operations drawn onto the frame in one driving cycle. -/
def targeting_overlay (s : NodeState) (img : ColorImage) : List OverlayOp :=
  match s.detect_boxes with
  | none => []
  | some boxes =>
    (boxes.map (fun b => (processBox s.np_depth_array_m img b).2)).flatten

/-- What one driving cycle emits: the localization records published (each one
gated by `publish_enable`) and the published overlay image (the input frame
with its drawing operations), also gated by `publish_enable`. -/
structure CycleOutput where
  published_data : List TargetLocalization
  published_image : Option (ColorImage × List OverlayOp)
deriving DecidableEq

/-- Handler `object_targeting_callback`: runs estimation over the held state for one
color frame. It writes none of the globals, so the resulting state is the
input state; emission of each record and of the image is gated by
`publish_enable`. -/
def object_targeting_callback (s : NodeState) (img : ColorImage) :
    NodeState × CycleOutput :=
  (s,
   { published_data := if s.publish_enable then targeting_records s img else []
     published_image :=
       if s.publish_enable then some (img, targeting_overlay s img) else none })

/-- Shutdown `cleanup_actions` (state effect): set `publish_enable` to false. -/
def cleanup_actions (s : NodeState) : NodeState :=
  { s with publish_enable := false }

/-- One input event on any of the three input channels. -/
inductive InputEvent where
  | foundObject (count : ℕ)
  | objectDetected (boxes : List BoundingBox)
  | depthData (raw : List (List RawDepth))

/-- Dispatch of one input event to its handler. -/
def applyEvent (s : NodeState) : InputEvent → NodeState
  | .foundObject c => found_object_callback s c
  | .objectDetected b => object_detected_callback s b
  | .depthData r => get_depth_data_callback s r

/-- A sequence of input events applied in arrival order. -/
def applyEvents (s : NodeState) (evs : List InputEvent) : NodeState :=
  evs.foldl applyEvent s

/-- Any number of driving color-frame cycles run back to back (state after). -/
def runCycles (s : NodeState) (imgs : List ColorImage) : NodeState :=
  imgs.foldl (fun st i => (object_targeting_callback st i).1) s

/-- The claim-side center of a box (its unreduced pixel center). -/
def boxCenterX (box : BoundingBox) : ℚ := ((box.xmin : ℚ) + box.xmax) / 2

/-- The claim-side center of a box (its unreduced pixel center). -/
def boxCenterY (box : BoundingBox) : ℚ := ((box.ymin : ℚ) + box.ymax) / 2

/-- Modelled from the claim wording of the box-shrink step (for comparison
with the code): the shrink amount, `box_reduction_pct/2` percent of the
extent, ROUNDED TO THE NEAREST integer. -/
def claimReductionXPix (box : BoundingBox) : ℤ :=
  round ((box.xmax - box.xmin : ℚ) * TARGET_BOX_REDUCTION_PERCENT / 100 / 2)

/-! ## Concrete instances used as witnesses and counterexamples -/

/-- An 8×8 depth frame whose central 4×4 region holds fifteen samples at 2 m
and one at 2.2 m. -/
def M1 : DepthMat :=
  [[0, 0, 0, 0, 0, 0, 0, 0],
   [0, 0, 0, 0, 0, 0, 0, 0],
   [0, 0, 11/5, 2, 2, 2, 0, 0],
   [0, 0, 2, 2, 2, 2, 0, 0],
   [0, 0, 2, 2, 2, 2, 0, 0],
   [0, 0, 2, 2, 2, 2, 0, 0],
   [0, 0, 0, 0, 0, 0, 0, 0],
   [0, 0, 0, 0, 0, 0, 0, 0]]

/-- A detection box covering all of an 8×8 frame; its shrunk version covers
rows and columns 2 to 5. -/
def B1 : BoundingBox := ⟨"person", 0, 0, 8, 8⟩

/-- A 1×2 depth frame holding exactly the samples 1.85 m and 2.15 m. -/
def M3 : DepthMat := [[37/20, 43/20]]

/-- A box whose shrunk version covers all of a 1×2 frame. -/
def B3 : BoundingBox := ⟨"person", 0, 0, 2, 1⟩

/-- One 10-column row of 2 m samples. -/
def row10 : List ℚ := [2, 2, 2, 2, 2, 2, 2, 2, 2, 2]

/-- A 10×10 depth frame of 2 m samples (dimensions differ from `IMG2`). -/
def M2 : DepthMat :=
  [row10, row10, row10, row10, row10, row10, row10, row10, row10, row10]

/-- A box whose shrunk version covers rows and columns 2 to 5. -/
def B2 : BoundingBox := ⟨"person", 0, 0, 8, 8⟩

/-- A 20×20 color frame: both dimensions differ from the 10×10 `M2`. -/
def IMG2 : ColorImage := ⟨20, 20⟩

/-- The spec scenario box (xmin=270, ymin=190, xmax=370, ymax=290). -/
def B4 : BoundingBox := ⟨"person", 270, 190, 370, 290⟩

/-- A box that is one pixel position wide on the x axis (xmin = xmax):
its shrunk box has zero area. -/
def B6 : BoundingBox := ⟨"person", 3, 0, 3, 5⟩

/-! ## Helper lemmas -/

/-- The filter output of the empty sample list is empty. -/
theorem depthFilter_nil : depthFilter [] = [] := rfl

/-- When the whole sample list is empty the filter keeps nothing, so the
validity count is zero. -/
theorem depthFilter_of_eq_nil {flat : List ℚ} (h : flat = []) :
    depthFilter flat = [] := h ▸ depthFilter_nil

/-- A positive surviving-sample count forces a non-empty sample list. -/
theorem depthSamples_ne_nil_of_filter_pos {flat : List ℚ}
    (h : 0 < (depthFilter flat).length) : flat ≠ [] := by
  intro he
  rw [depthFilter_of_eq_nil he] at h
  simp at h

/-- One slice bound is monotone for non-negative indices. -/
theorem sliceIdx_mono {a b : ℤ} (n : ℕ) (ha : 0 ≤ a) (hab : a ≤ b) :
    sliceIdx a n ≤ sliceIdx b n := by
  unfold sliceIdx
  rw [if_neg (by omega), if_neg (by omega)]
  exact Int.toNat_le_toNat (max_le_max le_rfl (min_le_min hab le_rfl))

/-- numpy `l[a:b]` is empty when `0 ≤ b ≤ a`. -/
theorem slice1_eq_nil {α : Type} (l : List α) {a b : ℤ} (hb : 0 ≤ b)
    (hba : b ≤ a) : slice1 l a b = [] := by
  unfold slice1
  rw [Nat.sub_eq_zero_of_le (sliceIdx_mono l.length hb hba)]
  exact List.take_zero _

/-- The x-axis shrink amount in integer arithmetic: the floor of a quarter of
the box extent (for sanely oriented boxes). -/
theorem boxReductionXPix_eq (box : BoundingBox) (h : box.xmin ≤ box.xmax) :
    boxReductionXPix box = (box.xmax - box.xmin) / 4 := by
  unfold boxReductionXPix pyInt TARGET_BOX_REDUCTION_PERCENT
  have he : (0 : ℤ) ≤ box.xmax - box.xmin := by omega
  have hq : ((box.xmax : ℚ) - box.xmin) * 50 / 100 / 2 =
      ((box.xmax - box.xmin : ℤ) : ℚ) / ((4 : ℕ) : ℚ) := by
    push_cast
    ring
  rw [hq, if_pos (by positivity), Rat.floor_intCast_div_natCast]
  norm_num

/-- The y-axis shrink amount in integer arithmetic. -/
theorem boxReductionYPix_eq (box : BoundingBox) (h : box.ymin ≤ box.ymax) :
    boxReductionYPix box = (box.ymax - box.ymin) / 4 := by
  unfold boxReductionYPix pyInt TARGET_BOX_REDUCTION_PERCENT
  have he : (0 : ℤ) ≤ box.ymax - box.ymin := by omega
  have hq : ((box.ymax : ℚ) - box.ymin) * 50 / 100 / 2 =
      ((box.ymax - box.ymin : ℤ) : ℚ) / ((4 : ℕ) : ℚ) := by
    push_cast
    ring
  rw [hq, if_pos (by positivity), Rat.floor_intCast_div_natCast]
  norm_num

/-! ## Claim theorems -/

/-- C1: while a depth matrix is held, if the depth-window filter leaves more
than `TARGET_MIN_VALUES` surviving samples then the reported range is the mean
of the original, unfiltered shrunk-region depth sub-matrix (not the filtered
subset); otherwise the range is the invalid sentinel -999. -/
theorem c1_range_is_unfiltered_mean (m : DepthMat) (box : BoundingBox) :
    (TARGET_MIN_VALUES < (depthFilter (depthSamples m box)).length →
      npMean (depthSamples m box) = some (targetRangeM (some m) box)) ∧
    ((depthFilter (depthSamples m box)).length ≤ TARGET_MIN_VALUES →
      targetRangeM (some m) box = -999) := by
  constructor
  · intro h
    have hne : depthSamples m box ≠ [] :=
      depthSamples_ne_nil_of_filter_pos (lt_of_le_of_lt (Nat.zero_le _) h)
    have hr : targetRangeM (some m) box =
        (depthSamples m box).sum / (depthSamples m box).length := by
      simp only [targetRangeM]
      rw [if_pos h]
    rw [hr]
    simp [npMean, hne]
  · intro h
    simp only [targetRangeM]
    rw [if_neg (by omega)]

/-- C1 witness: on the 8×8 frame `M1` with box `B1`, fifteen samples survive
the window (more than `TARGET_MIN_VALUES`) and the reported range is the mean
of all sixteen unfiltered samples, `161/80` (2.0125 m) — not the filtered mean
2 m. -/
theorem c1_range_is_unfiltered_mean_witness :
    TARGET_MIN_VALUES < (depthFilter (depthSamples M1 B1)).length ∧
    npMean (depthSamples M1 B1) = some (targetRangeM (some M1) B1) := by
  have hs : depthSamples M1 B1 =
      [11/5, 2, 2, 2, 2, 2, 2, 2, 2, 2, 2, 2, 2, 2, 2, 2] := by
    norm_num [depthSamples, depthBoxAdj, slice2, slice1, sliceIdx, M1, B1,
      yminAdj, ymaxAdj, xminAdj, xmaxAdj, boxReductionXPix, boxReductionYPix,
      pyInt, TARGET_BOX_REDUCTION_PERCENT, Int.toNat]
  have hlen : TARGET_MIN_VALUES < (depthFilter (depthSamples M1 B1)).length := by
    rw [hs]
    norm_num [depthFilter, npMean, TARGET_DEPTH_METERS, TARGET_MIN_VALUES,
      List.filter]
  exact ⟨hlen, (c1_range_is_unfiltered_mean M1 B1).1 hlen⟩

/-- C3 counterexample: on the 1×2 frame `M3` (samples 1.85 m and 2.15 m) with
box `B3`, the sub-matrix mean is 2 m, the sample 1.85 m equals the lower
endpoint `mean - TARGET_DEPTH_METERS/2` of the closed interval, yet the filter
discards it (and everything else): a sample equal to an interval endpoint is
NOT kept, so the claim's closed-interval rule is false on the code. -/
theorem c3_closed_interval_counterexample :
    npMean (depthSamples M3 B3) = some 2 ∧
    (37 : ℚ) / 20 ∈ depthSamples M3 B3 ∧
    (37 : ℚ) / 20 = 2 - TARGET_DEPTH_METERS / 2 ∧
    depthFilter (depthSamples M3 B3) = [] := by
  have hs : depthSamples M3 B3 = [37/20, 43/20] := by
    norm_num [depthSamples, depthBoxAdj, slice2, slice1, sliceIdx, M3, B3,
      yminAdj, ymaxAdj, xminAdj, xmaxAdj, boxReductionXPix, boxReductionYPix,
      pyInt, TARGET_BOX_REDUCTION_PERCENT, Int.toNat]
  refine ⟨?_, ?_, by norm_num [TARGET_DEPTH_METERS], ?_⟩
  · rw [hs]
    norm_num [npMean]
  · rw [hs]
    norm_num
  · rw [hs]
    norm_num [depthFilter, npMean, TARGET_DEPTH_METERS, List.filter]

/-- C3 (amended): a flattened sample of the shrunk-box sub-matrix is kept by
the depth-window filter exactly when the sub-matrix mean exists and the sample
lies STRICTLY inside the OPEN interval
`(depth_mean - TARGET_DEPTH_METERS/2, depth_mean + TARGET_DEPTH_METERS/2)`;
samples equal to either endpoint are discarded and do not count toward the
`TARGET_MIN_VALUES` validity test. -/
theorem c3_window_is_open_interval (m : DepthMat) (box : BoundingBox) (v : ℚ) :
    v ∈ depthFilter (depthSamples m box) ↔
      ∃ μ, npMean (depthSamples m box) = some μ ∧ v ∈ depthSamples m box ∧
        μ - TARGET_DEPTH_METERS / 2 < v ∧ v < μ + TARGET_DEPTH_METERS / 2 := by
  unfold depthFilter
  cases h : npMean (depthSamples m box) with
  | none => simp [h]
  | some μ =>
    simp only [h, List.mem_filter, decide_eq_true_eq, Option.some.injEq]
    constructor
    · rintro ⟨⟨hv, hlo⟩, hhi⟩
      exact ⟨μ, rfl, hv, hlo, hhi⟩
    · rintro ⟨μ', hμ, hv, hlo, hhi⟩
      cases hμ
      exact ⟨⟨hv, hlo⟩, hhi⟩

/-- C4: for every frame and box, azimuth equals
`((cx - W/2) / (W/2)) * (FOV_HORZ_DEG/2)` and elevation equals
`-((cy - H/2) / (H/2)) * (FOV_VERT_DEG/2)` where `(cx, cy)` is the unreduced
box center; both are linear in the pixel offset from the image center and are
zero whenever the box center coincides with the image center. -/
theorem c4_bearing_formulas (H W : ℕ) (box : BoundingBox) :
    targetHorzAngleDeg W box =
      ((boxCenterX box - (W : ℚ) / 2) / ((W : ℚ) / 2)) * (FOV_HORZ_DEG / 2) ∧
    targetVertAngleDeg H box =
      -(((boxCenterY box - (H : ℚ) / 2) / ((H : ℚ) / 2)) * (FOV_VERT_DEG / 2)) ∧
    (boxCenterX box = (W : ℚ) / 2 → targetHorzAngleDeg W box = 0) ∧
    (boxCenterY box = (H : ℚ) / 2 → targetVertAngleDeg H box = 0) := by
  have hx : objectLocXPix box = boxCenterX box := by
    unfold objectLocXPix boxCenterX
    ring
  have hy : objectLocYPix box = boxCenterY box := by
    unfold objectLocYPix boxCenterY
    ring
  refine ⟨by rw [targetHorzAngleDeg, hx], by rw [targetVertAngleDeg, hy], ?_, ?_⟩
  · intro h
    rw [targetHorzAngleDeg, hx, h]
    simp
  · intro h
    rw [targetVertAngleDeg, hy, h]
    simp

/-- C4 witness: in a 640×480 image (the spec scenario), box
(270,190)-(370,290) has center (320, 240) — the image center — and both
bearings are zero. -/
theorem c4_bearing_formulas_witness :
    targetHorzAngleDeg 640 B4 = 0 ∧ targetVertAngleDeg 480 B4 = 0 :=
  ⟨(c4_bearing_formulas 480 640 B4).2.2.1 (by norm_num [boxCenterX, B4]),
   (c4_bearing_formulas 480 640 B4).2.2.2 (by norm_num [boxCenterY, B4])⟩

/-- C5: when no depth matrix is held, every box still yields a localization
record, whose range is the sentinel -999 regardless of box geometry and whose
bearings are computed as usual. -/
theorem c5_missing_depth_sentinel (s : NodeState) (img : ColorImage)
    (boxes : List BoundingBox) (hd : s.np_depth_array_m = none)
    (hb : s.detect_boxes = some boxes) :
    targeting_records s img =
      boxes.map (fun b => ⟨b.Class, -999, targetHorzAngleDeg img.width b,
        targetVertAngleDeg img.height b⟩) := by
  simp [targeting_records, hb, hd, processBox, targetRangeM]

/-- C5 witness: with no depth matrix held and one detection box, the cycle
produces exactly one record carrying the sentinel range and the computed
bearings. -/
theorem c5_missing_depth_sentinel_witness :
    targeting_records ⟨true, none, some [B4]⟩ ⟨480, 640⟩ =
      [⟨B4.Class, -999, targetHorzAngleDeg 640 B4, targetVertAngleDeg 480 B4⟩] := by
  have h := c5_missing_depth_sentinel ⟨true, none, some [B4]⟩ ⟨480, 640⟩ [B4]
    rfl rfl
  simpa using h

/-- C2 counterexample: the held 10×10 depth matrix `M2` does not match the
20×20 color frame `IMG2`, yet the cycle reports a valid range of 2 m (the
numpy slice silently clips to the matrix bounds): a dimension mismatch does
NOT force the sentinel. -/
theorem c2_mismatch_counterexample :
    (matRows M2 ≠ IMG2.height ∧ matCols M2 ≠ IMG2.width) ∧
    (object_targeting_callback ⟨true, some M2, some [B2]⟩ IMG2).2.published_data =
      [⟨"person", 2, -33, 21⟩] ∧ ((2 : ℚ) ≠ -999) := by
  refine ⟨⟨by norm_num [matRows, M2, IMG2], by norm_num [matCols, M2, row10, IMG2]⟩,
    ?_, by norm_num⟩
  have hs : depthSamples M2 B2 =
      [2, 2, 2, 2, 2, 2, 2, 2, 2, 2, 2, 2, 2, 2, 2, 2] := by
    norm_num [depthSamples, depthBoxAdj, slice2, slice1, sliceIdx, M2, row10, B2,
      yminAdj, ymaxAdj, xminAdj, xmaxAdj, boxReductionXPix, boxReductionYPix,
      pyInt, TARGET_BOX_REDUCTION_PERCENT, Int.toNat]
  have hr : targetRangeM (some M2) B2 = 2 := by
    simp only [targetRangeM, hs]
    norm_num [depthFilter, npMean, TARGET_DEPTH_METERS, TARGET_MIN_VALUES,
      List.filter]
  have hb : (object_targeting_callback ⟨true, some M2, some [B2]⟩ IMG2).2.published_data
      = [⟨B2.Class, targetRangeM (some M2) B2, targetHorzAngleDeg IMG2.width B2,
          targetVertAngleDeg IMG2.height B2⟩] := by
    simp [object_targeting_callback, targeting_records, processBox]
  rw [hb, hr]
  norm_num [targetHorzAngleDeg, targetVertAngleDeg, objectLocXPix, objectLocYPix,
    FOV_HORZ_DEG, FOV_VERT_DEG, B2, IMG2]

/-- C2 (amended): a width/height mismatch between the held depth matrix and
the driving color frame is not detected: the cycle proceeds without failing
(the state is untouched and one record per box is emitted), bearings are
computed from the color frame, and each range is produced by the ordinary
clipped-slice rule `targetRangeM` — which can be a valid non-sentinel value;
-999 arises under mismatch only through the normal empty/insufficient-sample
path. -/
theorem c2_mismatch_not_detected (m : DepthMat) (boxes : List BoundingBox)
    (img : ColorImage)
    (hmis : matRows m ≠ img.height ∨ matCols m ≠ img.width) :
    (object_targeting_callback ⟨true, some m, some boxes⟩ img).1 =
      (⟨true, some m, some boxes⟩ : NodeState) ∧
    (object_targeting_callback ⟨true, some m, some boxes⟩ img).2.published_data =
      boxes.map (fun b => ⟨b.Class, targetRangeM (some m) b,
        targetHorzAngleDeg img.width b, targetVertAngleDeg img.height b⟩) := by
  refine ⟨rfl, ?_⟩
  simp [object_targeting_callback, targeting_records, processBox]

/-- C2 witness: instantiating the amended statement on the mismatched pair
`M2` / `IMG2` (10×10 depth versus 20×20 frame). -/
theorem c2_mismatch_not_detected_witness :
    (object_targeting_callback ⟨true, some M2, some [B2]⟩ IMG2).2.published_data =
      [⟨B2.Class, targetRangeM (some M2) B2, targetHorzAngleDeg IMG2.width B2,
        targetVertAngleDeg IMG2.height B2⟩] := by
  have h := c2_mismatch_not_detected M2 [B2] IMG2
    (Or.inl (by norm_num [matRows, M2, IMG2]))
  simpa using h.2

/-- C6: a detection box (sane pixel coordinates) whose shrunk box has zero
area yields an empty depth sub-matrix and the sentinel range -999, for any
held depth matrix — the same outcome as InsufficientSamples, never an invalid
number. -/
theorem c6_zero_area_box_sentinel (depth : Option DepthMat) (box : BoundingBox)
    (hx0 : 0 ≤ box.xmin) (hy0 : 0 ≤ box.ymin)
    (hx : box.xmin ≤ box.xmax) (hy : box.ymin ≤ box.ymax)
    (hdeg : xmaxAdj box ≤ xminAdj box ∨ ymaxAdj box ≤ yminAdj box) :
    targetRangeM depth box = -999 := by
  cases depth with
  | none => rfl
  | some m =>
    have hrx := boxReductionXPix_eq box hx
    have hry := boxReductionYPix_eq box hy
    have hbx : 0 ≤ xmaxAdj box := by
      unfold xmaxAdj
      rw [hrx]
      omega
    have hby : 0 ≤ ymaxAdj box := by
      unfold ymaxAdj
      rw [hry]
      omega
    have hflat : depthSamples m box = [] := by
      unfold depthSamples depthBoxAdj slice2
      rcases hdeg with h | h
      · rw [List.flatten_eq_nil_iff]
        intro l hl
        obtain ⟨row, _, rfl⟩ := List.mem_map.mp hl
        exact slice1_eq_nil row hbx h
      · rw [slice1_eq_nil m hby h]
        rfl
    simp only [targetRangeM, hflat, depthFilter_nil, List.length_nil]
    norm_num [TARGET_MIN_VALUES]

/-- C6 witness: the box `B6` is one pixel position wide (xmin = xmax = 3), its
shrunk box has zero area, and with the held matrix `M3` the range is the
sentinel. -/
theorem c6_zero_area_box_sentinel_witness :
    (xmaxAdj B6 ≤ xminAdj B6 ∨ ymaxAdj B6 ≤ yminAdj B6) ∧
    targetRangeM (some M3) B6 = -999 := by
  have hdeg : xmaxAdj B6 ≤ xminAdj B6 ∨ ymaxAdj B6 ≤ yminAdj B6 :=
    Or.inl (by norm_num [xmaxAdj, xminAdj, boxReductionXPix, pyInt, B6,
      TARGET_BOX_REDUCTION_PERCENT])
  exact ⟨hdeg, c6_zero_area_box_sentinel (some M3) B6 (by norm_num [B6])
    (by norm_num [B6]) (by norm_num [B6]) (by norm_num [B6]) hdeg⟩

/-- C7: a detection-count event reporting zero objects discards the held
detection set, and the next driving cycle (with output still enabled) emits
zero localization records and the unmodified input frame (no overlay
operations) as the overlay image. -/
theorem c7_count_zero_clears (s : NodeState) (img : ColorImage)
    (henable : s.publish_enable = true) :
    (found_object_callback s 0).detect_boxes = none ∧
    (object_targeting_callback (found_object_callback s 0) img).2.published_data
      = [] ∧
    (object_targeting_callback (found_object_callback s 0) img).2.published_image
      = some (img, []) := by
  refine ⟨rfl, ?_, ?_⟩ <;>
    simp [object_targeting_callback, found_object_callback, targeting_records,
      targeting_overlay, henable]

/-- C7 witness: a populated state (depth and one box held) is cleared by a
zero count and the following cycle emits no records and the bare frame. -/
theorem c7_count_zero_clears_witness :
    (found_object_callback ⟨true, some M1, some [B1]⟩ 0).detect_boxes = none ∧
    (object_targeting_callback (found_object_callback ⟨true, some M1, some [B1]⟩ 0)
      ⟨480, 640⟩).2.published_data = [] ∧
    (object_targeting_callback (found_object_callback ⟨true, some M1, some [B1]⟩ 0)
      ⟨480, 640⟩).2.published_image = some (⟨480, 640⟩, []) :=
  c7_count_zero_clears _ _ rfl

/-- A box of extent 7 on each axis: the exact shrink amount is 1.75 pixels. -/
def B8 : BoundingBox := ⟨"person", 0, 0, 7, 7⟩

/-- C8 counterexample: for a box of extent 7, the code truncates the 1.75-pixel
shrink amount to 1, while rounding to the nearest integer (the claim's rule,
and 2·2 = 4 ≤ 7 keeps the result enclosed) gives 2: the claim's rounding rule
is false on the code. -/
theorem c8_rounding_counterexample :
    boxReductionXPix B8 = 1 ∧ claimReductionXPix B8 = 2 ∧
    boxReductionXPix B8 ≠ claimReductionXPix B8 := by
  refine ⟨?_, ?_, ?_⟩ <;>
    norm_num [boxReductionXPix, claimReductionXPix, pyInt, B8,
      TARGET_BOX_REDUCTION_PERCENT, round_eq]

/-- C8 (amended): the box is shrunk symmetrically on each axis by
`TARGET_BOX_REDUCTION_PERCENT/2` percent of that axis's extent — a quarter of
the extent — with the (nonnegative) shrink amount TRUNCATED to an integer
(floor), i.e. by `(extent)/4` in integer division. -/
theorem c8_truncated_symmetric_shrink (box : BoundingBox)
    (hx : box.xmin ≤ box.xmax) (hy : box.ymin ≤ box.ymax) :
    xminAdj box = box.xmin + (box.xmax - box.xmin) / 4 ∧
    xmaxAdj box = box.xmax - (box.xmax - box.xmin) / 4 ∧
    yminAdj box = box.ymin + (box.ymax - box.ymin) / 4 ∧
    ymaxAdj box = box.ymax - (box.ymax - box.ymin) / 4 := by
  unfold xminAdj xmaxAdj yminAdj ymaxAdj
  rw [boxReductionXPix_eq box hx, boxReductionYPix_eq box hy]
  exact ⟨rfl, rfl, rfl, rfl⟩

/-- C8 witness: the spec scenario box (270,190)-(370,290) with 50% reduction
shrinks to (295,215)-(345,265). -/
theorem c8_truncated_symmetric_shrink_witness :
    xminAdj B4 = 295 ∧ yminAdj B4 = 215 ∧ xmaxAdj B4 = 345 ∧ ymaxAdj B4 = 265 := by
  have h := c8_truncated_symmetric_shrink B4 (by norm_num [B4]) (by norm_num [B4])
  refine ⟨?_, ?_, ?_, ?_⟩
  · rw [h.1]
    norm_num [B4]
  · rw [h.2.2.1]
    norm_num [B4]
  · rw [h.2.1]
    norm_num [B4]
  · rw [h.2.2.2]
    norm_num [B4]

/-- Every input handler leaves `publish_enable` unchanged. -/
theorem applyEvent_publish_enable (s : NodeState) (e : InputEvent) :
    (applyEvent s e).publish_enable = s.publish_enable := by
  cases e with
  | foundObject c =>
    by_cases h : c = 0 <;> simp [applyEvent, found_object_callback, h]
  | objectDetected b => rfl
  | depthData r => rfl

/-- A whole sequence of input events leaves `publish_enable` unchanged. -/
theorem applyEvents_publish_enable (evs : List InputEvent) (s : NodeState) :
    (applyEvents s evs).publish_enable = s.publish_enable := by
  induction evs generalizing s with
  | nil => rfl
  | cons e evs ih =>
    rw [applyEvents, List.foldl_cons]
    rw [show List.foldl applyEvent (applyEvent s e) evs =
      applyEvents (applyEvent s e) evs from rfl]
    rw [ih, applyEvent_publish_enable]

/-- C9: once `cleanup_actions` has cleared the enabled flag, no later driving
cycle publishes a localization record or an annotated image, no matter which
input events arrive in between — while the depth, detection-box and
detection-count handlers all still accept and apply their updates. -/
theorem c9_shutdown_gate (s : NodeState) (evs : List InputEvent)
    (img : ColorImage) (raw : List (List RawDepth))
    (boxes : List BoundingBox) :
    (object_targeting_callback (applyEvents (cleanup_actions s) evs) img).2.published_data
      = [] ∧
    (object_targeting_callback (applyEvents (cleanup_actions s) evs) img).2.published_image
      = none ∧
    (get_depth_data_callback (applyEvents (cleanup_actions s) evs) raw).np_depth_array_m
      = some (sanitizeDepth raw) ∧
    (object_detected_callback (applyEvents (cleanup_actions s) evs) boxes).detect_boxes
      = some boxes ∧
    (found_object_callback (applyEvents (cleanup_actions s) evs) 0).detect_boxes
      = none := by
  have hen : (applyEvents (cleanup_actions s) evs).publish_enable = false := by
    rw [applyEvents_publish_enable]
    rfl
  refine ⟨?_, ?_, rfl, rfl, rfl⟩ <;>
    simp [object_targeting_callback, hen]

/-- C10: each handler writes only its own piece of the shared state — the
depth callback leaves the detection set and the flag alone, the box and count
callbacks leave the depth matrix and the flag alone — and the color-frame
driver modifies no state at all, so any number of driving cycles with no
intervening input event leaves the whole state unchanged. -/
theorem c10_frame_effects (s : NodeState) (raw : List (List RawDepth))
    (boxes : List BoundingBox) (count : ℕ) (imgs : List ColorImage) :
    ((get_depth_data_callback s raw).detect_boxes = s.detect_boxes ∧
     (get_depth_data_callback s raw).publish_enable = s.publish_enable) ∧
    ((object_detected_callback s boxes).np_depth_array_m = s.np_depth_array_m ∧
     (object_detected_callback s boxes).publish_enable = s.publish_enable) ∧
    ((found_object_callback s count).np_depth_array_m = s.np_depth_array_m ∧
     (found_object_callback s count).publish_enable = s.publish_enable) ∧
    runCycles s imgs = s := by
  refine ⟨⟨rfl, rfl⟩, ⟨rfl, rfl⟩, ⟨?_, ?_⟩, ?_⟩
  · unfold found_object_callback
    split <;> rfl
  · unfold found_object_callback
    split <;> rfl
  · induction imgs with
    | nil => rfl
    | cons i is ih =>
      rw [runCycles, List.foldl_cons]
      exact ih

end ZedTargeting
